import Mathlib

/-!
Verification of the cluster-configuration generator
(`pilot/pkg/networking/v1alpha3/cluster.go`).

The Go source is shallowly embedded: each Go function that mutates a
`*v2.Cluster` becomes a Lean function `Cluster → ... → Cluster`, machine
integers become `Int` (with explicit two's-complement wrapping where the Go
code can overflow), pointers that may be nil become `Option`, and fallible
registry calls become `Except`.  Helpers that live outside the embedded file
(in the `model`, `util` and `authn` packages) are modelled from the spec and
marked as such.
-/

namespace IstioCluster

/-- Discovery types of `v2.Cluster_DiscoveryType`. -/
inductive DiscoveryType where
  | STATIC
  | STRICT_DNS
  | LOGICAL_DNS
  | EDS
  | ORIGINAL_DST
  deriving DecidableEq, Repr

/-- Load-balancing policies of `v2.Cluster_LbPolicy`. -/
inductive LbPolicyOut where
  | ROUND_ROBIN
  | LEAST_REQUEST
  | RING_HASH
  | RANDOM
  | ORIGINAL_DST_LB
  deriving DecidableEq, Repr

/-- `types.Duration` (gogo protobuf): a seconds / nanos pair. -/
structure GogoDuration where
  seconds : Int
  nanos : Int
  deriving DecidableEq, Repr

/-- A socket address (host, port), the payload of `core.Address`. -/
structure Address where
  address : String
  port : Nat
  deriving DecidableEq, Repr

/-- `v2_cluster.CircuitBreakers_Thresholds`; `Option` models the nilable
`*types.UInt32Value` wrappers. -/
structure Thresholds where
  maxConnections : Option Nat
  maxPendingRequests : Option Nat
  maxRequests : Option Nat
  maxRetries : Option Nat
  deriving DecidableEq, Repr

/-- `v2_cluster.CircuitBreakers`. -/
structure CircuitBreakers where
  thresholds : List Thresholds
  deriving DecidableEq, Repr

/-- `v2_cluster.OutlierDetection` (the fields the generator writes). -/
structure OutlierDetectionOut where
  consecutive5xx : Option Nat
  interval : Option GogoDuration
  baseEjectionTime : Option GogoDuration
  maxEjectionPercent : Option Nat
  deriving DecidableEq, Repr

/-- `core.DataSource` carrying a filename specifier. -/
structure DataSource where
  filename : String
  deriving DecidableEq, Repr

/-- `auth.TlsCertificate`. -/
structure TlsCertificate where
  certificateChain : DataSource
  privateKey : DataSource
  deriving DecidableEq, Repr

/-- `auth.CertificateValidationContext`. -/
structure CertificateValidationContext where
  trustedCa : DataSource
  verifySubjectAltName : List String
  deriving DecidableEq, Repr

/-- `auth.CommonTlsContext` (the fields the generator writes). -/
structure CommonTlsContext where
  tlsCertificates : List TlsCertificate
  validationContext : Option CertificateValidationContext
  deriving DecidableEq, Repr

/-- `auth.UpstreamTlsContext`. -/
structure UpstreamTlsContext where
  commonTlsContext : CommonTlsContext
  sni : String
  deriving DecidableEq, Repr

/-- `core.ApiConfigSource_ApiType` (only GRPC is produced). -/
inductive ApiType where
  | REST_LEGACY
  | REST
  | GRPC
  deriving DecidableEq, Repr

/-- `core.ApiConfigSource`; the refresh delay is a `time.Duration`
(an `int64` count of nanoseconds), embedded as `Int`. -/
structure ApiConfigSource where
  apiType : ApiType
  clusterNames : List String
  refreshDelay : Int
  deriving DecidableEq, Repr

/-- `core.ConfigSource` with the `ApiConfigSource` specifier. -/
structure ConfigSource where
  apiConfigSource : ApiConfigSource
  deriving DecidableEq, Repr

/-- `v2.Cluster_EdsClusterConfig`, the EDS linkage block. -/
structure EdsClusterConfig where
  serviceName : String
  edsConfig : ConfigSource
  deriving DecidableEq, Repr

/-- `v2.Cluster`, the output artifact.  `connectTimeout` is a
`time.Duration` in nanoseconds; absent protobuf sub-messages are `none`;
`http2ProtocolOptions` records the presence of the (field-less)
`core.Http2ProtocolOptions` message. -/
structure Cluster where
  name : String
  type : DiscoveryType
  connectTimeout : Int
  hosts : List Address
  edsClusterConfig : Option EdsClusterConfig
  maxRequestsPerConnection : Option Nat
  circuitBreakers : Option CircuitBreakers
  outlierDetection : Option OutlierDetectionOut
  lbPolicy : LbPolicyOut
  tlsContext : Option UpstreamTlsContext
  http2ProtocolOptions : Bool
  deriving DecidableEq, Repr

/-- `networking.LoadBalancerSettings_SimpleLB`; `ROUND_ROBIN` is the zero
value of the enum. -/
inductive SimpleLB where
  | ROUND_ROBIN
  | LEAST_CONN
  | RANDOM
  | PASSTHROUGH
  deriving DecidableEq, Repr

/-- The `LbPolicy` oneof of `networking.LoadBalancerSettings`. -/
inductive LbSetting where
  | simple (s : SimpleLB)
  | consistentHash
  deriving DecidableEq, Repr

/-- `networking.LoadBalancerSettings`; the oneof may be unset (`none`). -/
structure LoadBalancerSettings where
  lbPolicy : Option LbSetting
  deriving DecidableEq, Repr

/-- `GetSimple()`: the simple enum if that oneof arm is set, otherwise the
enum's zero value `ROUND_ROBIN`. -/
def LoadBalancerSettings.getSimple (lb : LoadBalancerSettings) : SimpleLB :=
  match lb.lbPolicy with
  | some (.simple s) => s
  | _ => .ROUND_ROBIN

/-- `networking.ConnectionPoolSettings_TCPSettings`. -/
structure TCPSettings where
  maxConnections : Int
  connectTimeout : Option GogoDuration
  deriving DecidableEq, Repr

/-- `networking.ConnectionPoolSettings_HTTPSettings`. -/
structure HTTPSettings where
  http1MaxPendingRequests : Int
  http2MaxRequests : Int
  maxRequestsPerConnection : Int
  maxRetries : Int
  deriving DecidableEq, Repr

/-- `networking.ConnectionPoolSettings`. -/
structure ConnectionPoolSettings where
  tcp : Option TCPSettings
  http : Option HTTPSettings
  deriving DecidableEq, Repr

/-- `networking.OutlierDetection_HTTPSettings`. -/
structure HTTPOutlier where
  consecutiveErrors : Int
  interval : Option GogoDuration
  baseEjectionTime : Option GogoDuration
  maxEjectionPercent : Int
  deriving DecidableEq, Repr

/-- `networking.OutlierDetection`. -/
structure OutlierDetection where
  http : Option HTTPOutlier
  deriving DecidableEq, Repr

/-- `networking.TLSSettings_TLSmode`. -/
inductive TLSMode where
  | DISABLE
  | SIMPLE
  | MUTUAL
  deriving DecidableEq, Repr

/-- `networking.TLSSettings`. -/
structure TLSSettings where
  mode : TLSMode
  clientCertificate : String
  privateKey : String
  caCertificates : String
  subjectAltNames : List String
  sni : String
  deriving DecidableEq, Repr

/-- `networking.TrafficPolicy`: four independently-optional sub-policies. -/
structure TrafficPolicy where
  loadBalancer : Option LoadBalancerSettings
  connectionPool : Option ConnectionPoolSettings
  outlierDetection : Option OutlierDetection
  tls : Option TLSSettings
  deriving DecidableEq, Repr

/-- `networking.Subset` (labels are irrelevant to the generator). -/
structure Subset where
  name : String
  trafficPolicy : Option TrafficPolicy
  deriving DecidableEq, Repr

/-- `networking.DestinationRule` as seen by the generator. -/
structure DestinationRule where
  trafficPolicy : Option TrafficPolicy
  subsets : List Subset
  deriving DecidableEq, Repr

/-- `model.Resolution`. -/
inductive Resolution where
  | ClientSideLB
  | DNSLB
  | Passthrough
  deriving DecidableEq, Repr

/-- `model.Protocol` (the values the generator distinguishes). -/
inductive Protocol where
  | HTTP
  | HTTP2
  | GRPC
  | HTTPS
  | TCP
  | UDP
  | Unsupported
  deriving DecidableEq, Repr

/-- Modelled from the spec: `model.Protocol.IsHTTP` is true exactly for the
HTTP-family application protocols (HTTP/1.1, HTTP/2, gRPC); the `model`
package is outside the embedded source file. -/
def Protocol.isHTTP (p : Protocol) : Bool :=
  p == .HTTP || p == .HTTP2 || p == .GRPC

/-- `model.Port`. -/
structure Port where
  name : String
  port : Nat
  protocol : Protocol
  deriving DecidableEq, Repr

/-- `model.Service` (the fields the generator reads). -/
structure Service where
  hostname : String
  ports : List Port
  resolution : Resolution
  deriving DecidableEq, Repr

/-- `model.NetworkEndpoint`: a concrete address/port bound to a service port. -/
structure NetworkEndpoint where
  address : String
  port : Nat
  servicePort : Port
  deriving DecidableEq, Repr

/-- `model.ServiceInstance`. -/
structure ServiceInstance where
  endpoint : NetworkEndpoint
  service : Service
  deriving DecidableEq, Repr

/-- `model.TrafficDirection`. -/
inductive TrafficDirection where
  | outbound
  | inbound
  deriving DecidableEq, Repr

def TrafficDirection.str : TrafficDirection → String
  | .outbound => "outbound"
  | .inbound => "inbound"

/-- `model.Proxy.Type`. -/
inductive ProxyType where
  | Sidecar
  | Ingress
  | Router
  deriving DecidableEq, Repr

/-- `model.Proxy` (the fields the generator reads). -/
structure Proxy where
  type : ProxyType
  ipAddress : String
  deriving DecidableEq, Repr

/-- The mesh-wide settings the generator reads from `env.Mesh`. -/
structure MeshConfig where
  rdsRefreshDelay : GogoDuration
  connectTimeout : GogoDuration
  deriving Repr

/-- `model.Environment`: registry and config-store collaborators, consumed
through their interfaces.  Fallible registry calls are `Except`;
`jwksClusters` stands for `authn.BuildJwksURIClustersForProxyInstances`
(modelled from the spec: auxiliary authentication clusters supplied
externally and appended verbatim). -/
structure Environment where
  services : Except String (List Service)
  destinationRule : String → Option DestinationRule
  instances : String → List String → Except String (List ServiceInstance)
  getProxyServiceInstances : Proxy → Except String (List ServiceInstance)
  managementPorts : String → List Port
  mesh : MeshConfig
  jwksClusters : List ServiceInstance → List Cluster

/-- `DefaultLbType`: round robin. -/
def DefaultLbType : SimpleLB := .ROUND_ROBIN

/-- `ManagementClusterHostname`. -/
def ManagementClusterHostname : String := "mgmtCluster"

/-- `defaultClusterConnectTimeout = 5 * time.Second`, in nanoseconds. -/
def defaultClusterConnectTimeout : Int := 5000000000

/-- `xdsName`, the fixed discovery-service cluster name. -/
def xdsName : String := "xds-grpc"

/-- The loopback address inbound clusters bind to. -/
def loopback : String := "127.0.0.1"

/-- The empty subset name used for default (unnamed-subset) clusters. -/
def emptySubset : String := ""

/-- Two's-complement wrap of an `Int` into the `int64` range, the behaviour
of Go's `time.Duration` arithmetic on overflow. -/
def int64wrap (x : Int) : Int :=
  (x + 9223372036854775808) % 18446744073709551616 - 9223372036854775808

/-- Modelled from the spec: `util.ConvertGogoDurationToDuration` (from the
`util` package, outside the embedded file) converts a seconds/nanos duration
value to a `time.Duration` count of nanoseconds. -/
def convertGogoDurationToDuration (d : GogoDuration) : Int :=
  int64wrap (d.seconds * 1000000000 + d.nanos)

/-- Modelled from the spec: `util.BuildAddress` (from the `util` package,
outside the embedded file) builds a socket address from a host and a port. -/
def buildAddress (ip : String) (port : Nat) : Address :=
  { address := ip, port := port }

/-- Modelled from the spec: `model.BuildSubsetKey` (from the `model`
package, outside the embedded file) derives a cluster name from direction,
subset name, hostname and port. -/
def buildSubsetKey (d : TrafficDirection) (subset : String) (hostname : String) (port : Port) : String :=
  d.str ++ "|" ++ toString port.port ++ "|" ++ subset ++ "|" ++ hostname

/-- `convertResolution`: maps a service resolution mode to a discovery type. -/
def convertResolution : Resolution → DiscoveryType
  | .ClientSideLB => .EDS
  | .DNSLB => .STRICT_DNS
  | .Passthrough => .ORIGINAL_DST

/-- `applyConnectionPool`: no-op on nil settings; otherwise builds a fresh
thresholds record from the Http/Tcp blocks, sets the per-cluster
max-requests-per-connection and connect timeout where present, and replaces
the cluster's circuit-breaker block with the one-element thresholds list. -/
def applyConnectionPool (cluster : Cluster) (settings : Option ConnectionPoolSettings) : Cluster :=
  match settings with
  | none => cluster
  | some s =>
    let t0 : Thresholds :=
      { maxConnections := none, maxPendingRequests := none
        maxRequests := none, maxRetries := none }
    let t1 : Thresholds :=
      match s.http with
      | none => t0
      | some h =>
        { t0 with
          maxRequests := if 0 < h.http2MaxRequests then some h.http2MaxRequests.toNat else t0.maxRequests
          maxPendingRequests :=
            if 0 < h.http1MaxPendingRequests then some h.http1MaxPendingRequests.toNat else t0.maxPendingRequests
          maxRetries := if 0 < h.maxRetries then some h.maxRetries.toNat else t0.maxRetries }
    let c1 : Cluster :=
      match s.http with
      | none => cluster
      | some h =>
        if 0 < h.maxRequestsPerConnection then
          { cluster with maxRequestsPerConnection := some h.maxRequestsPerConnection.toNat }
        else cluster
    let c2 : Cluster :=
      match s.tcp with
      | none => c1
      | some tcp =>
        match tcp.connectTimeout with
        | some d => { c1 with connectTimeout := convertGogoDurationToDuration d }
        | none => c1
    let t2 : Thresholds :=
      match s.tcp with
      | none => t1
      | some tcp =>
        if 0 < tcp.maxConnections then { t1 with maxConnections := some tcp.maxConnections.toNat } else t1
    { c2 with circuitBreakers := some { thresholds := [t2] } }

/-- `applyOutlierDetection`: no-op unless an Http sub-block is present;
otherwise replaces the cluster's outlier-detection block. -/
def applyOutlierDetection (cluster : Cluster) (outlier : Option OutlierDetection) : Cluster :=
  match outlier with
  | none => cluster
  | some o =>
    match o.http with
    | none => cluster
    | some h =>
      { cluster with
        outlierDetection := some
          { baseEjectionTime := h.baseEjectionTime
            consecutive5xx := if 0 < h.consecutiveErrors then some h.consecutiveErrors.toNat else none
            interval := h.interval
            maxEjectionPercent := if 0 < h.maxEjectionPercent then some h.maxEjectionPercent.toNat else none } }

/-- `applyLoadBalancer`: maps the simple LB enum onto the cluster; the
passthrough arm additionally forces the discovery type to ORIGINAL_DST. -/
def applyLoadBalancer (cluster : Cluster) (lb : Option LoadBalancerSettings) : Cluster :=
  match lb with
  | none => cluster
  | some l =>
    match l.getSimple with
    | .LEAST_CONN => { cluster with lbPolicy := .LEAST_REQUEST }
    | .RANDOM => { cluster with lbPolicy := .RANDOM }
    | .ROUND_ROBIN => { cluster with lbPolicy := .ROUND_ROBIN }
    | .PASSTHROUGH => { cluster with lbPolicy := .ORIGINAL_DST_LB, type := .ORIGINAL_DST }

/-- `applyUpstreamTLSSettings`: DISABLE is a no-op; SIMPLE installs a
one-sided context; MUTUAL installs a two-sided context. -/
def applyUpstreamTLSSettings (cluster : Cluster) (tls : Option TLSSettings) : Cluster :=
  match tls with
  | none => cluster
  | some t =>
    match t.mode with
    | .DISABLE => cluster
    | .SIMPLE =>
      { cluster with
        tlsContext := some
          { commonTlsContext :=
              { tlsCertificates := []
                validationContext := some
                  { trustedCa := { filename := t.caCertificates }
                    verifySubjectAltName := t.subjectAltNames } }
            sni := t.sni } }
    | .MUTUAL =>
      { cluster with
        tlsContext := some
          { commonTlsContext :=
              { tlsCertificates :=
                  [{ certificateChain := { filename := t.clientCertificate }
                     privateKey := { filename := t.privateKey } }]
                validationContext := some
                  { trustedCa := { filename := t.caCertificates }
                    verifySubjectAltName := t.subjectAltNames } }
            sni := t.sni } }

/-- `applyTrafficPolicy`: no-op on a nil policy, else the four sub-policies
in source order. -/
def applyTrafficPolicy (cluster : Cluster) (policy : Option TrafficPolicy) : Cluster :=
  match policy with
  | none => cluster
  | some p =>
    applyUpstreamTLSSettings
      (applyLoadBalancer
        (applyOutlierDetection
          (applyConnectionPool cluster p.connectionPool)
          p.outlierDetection)
        p.loadBalancer)
      p.tls

/-- `setUpstreamProtocol`: HTTP/2 options for HTTP2 and gRPC ports. -/
def setUpstreamProtocol (cluster : Cluster) (port : Port) : Cluster :=
  if port.protocol.isHTTP then
    if port.protocol == .HTTP2 || port.protocol == .GRPC then
      { cluster with http2ProtocolOptions := true }
    else cluster
  else cluster

/-- `buildDefaultTrafficPolicy`: baseline policy — round-robin (passthrough
when the discovery type is ORIGINAL_DST) plus the mesh-wide connect
timeout. -/
def buildDefaultTrafficPolicy (env : Environment) (discoveryType : DiscoveryType) : TrafficPolicy :=
  let lbPolicy : SimpleLB :=
    if discoveryType == .ORIGINAL_DST then .PASSTHROUGH else DefaultLbType
  { loadBalancer := some { lbPolicy := some (.simple lbPolicy) }
    connectionPool := some
      { tcp := some
          { maxConnections := 0
            connectTimeout := some
              { seconds := env.mesh.connectTimeout.seconds
                nanos := env.mesh.connectTimeout.nanos } }
        http := none }
    outlierDetection := none
    tls := none }

/-- `buildDefaultCluster`: a cluster shell (Go zero values elsewhere) with
the baseline policy applied. -/
def buildDefaultCluster (env : Environment) (name : String) (discoveryType : DiscoveryType)
    (hosts : List Address) : Cluster :=
  let cluster : Cluster :=
    { name := name, type := discoveryType, hosts := hosts
      connectTimeout := 0, edsClusterConfig := none
      maxRequestsPerConnection := none, circuitBreakers := none
      outlierDetection := none, lbPolicy := .ROUND_ROBIN
      tlsContext := none, http2ProtocolOptions := false }
  applyTrafficPolicy cluster (some (buildDefaultTrafficPolicy env discoveryType))

/-- `updateEds`: on an EDS cluster, attach the EDS linkage with a refresh
delay computed from the seconds of the mesh RDS refresh setting (5s when
that comes out zero). -/
def updateEds (env : Environment) (cluster : Cluster) (serviceName : String) : Cluster :=
  if cluster.type ≠ .EDS then cluster
  else
    let refresh0 : Int := int64wrap (env.mesh.rdsRefreshDelay.seconds * 1000000000)
    let refresh : Int := if refresh0 = 0 then 5000000000 else refresh0
    { cluster with
      edsClusterConfig := some
        { serviceName := cluster.name
          edsConfig :=
            { apiConfigSource :=
                { apiType := .GRPC
                  clusterNames := [xdsName]
                  refreshDelay := refresh } } } }

/-- `buildClusterHosts`: static hosts for DNS-resolved services only; a
registry failure degrades to an empty host list. -/
def buildClusterHosts (env : Environment) (service : Service) (port : Port) : List Address :=
  if service.resolution ≠ .DNSLB then []
  else
    match env.instances service.hostname [port.name] with
    | .error _ => []
    | .ok instances =>
      instances.map (fun inst => buildAddress inst.endpoint.address inst.endpoint.port)

/-- The clusters `buildOutboundClusters` emits for one (service, port):
a default cluster, then (when a destination rule exists) the rule-level
policy applied to it and one cluster per subset. -/
def outboundClustersForPort (env : Environment) (config : Option DestinationRule)
    (service : Service) (port : Port) : List Cluster :=
  let hosts := buildClusterHosts env service port
  let clusterName := buildSubsetKey .outbound emptySubset service.hostname port
  let c0 := buildDefaultCluster env clusterName (convertResolution service.resolution) hosts
  let c1 := updateEds env c0 service.hostname
  let defaultCluster := setUpstreamProtocol c1 port
  match config with
  | none => [defaultCluster]
  | some destinationRule =>
    applyTrafficPolicy defaultCluster destinationRule.trafficPolicy ::
      destinationRule.subsets.map (fun subset =>
        let subsetClusterName := buildSubsetKey .outbound subset.name service.hostname port
        let s0 := buildDefaultCluster env subsetClusterName (convertResolution service.resolution) hosts
        let s1 := updateEds env s0 service.hostname
        let s2 := setUpstreamProtocol s1 port
        let s3 := applyTrafficPolicy s2 destinationRule.trafficPolicy
        applyTrafficPolicy s3 subset.trafficPolicy)

/-- `buildOutboundClusters`: services × ports. -/
def buildOutboundClusters (env : Environment) (services : List Service) : List Cluster :=
  services.flatMap (fun service =>
    let config := env.destinationRule service.hostname
    service.ports.flatMap (fun port => outboundClustersForPort env config service port))

/-- `buildInboundClusters`: one STATIC loopback cluster per instance, one per
management port. -/
def buildInboundClusters (env : Environment) (instances : List ServiceInstance)
    (managementPorts : List Port) : List Cluster :=
  instances.map (fun inst =>
    let clusterName := buildSubsetKey .inbound emptySubset inst.service.hostname inst.endpoint.servicePort
    let address := buildAddress loopback inst.endpoint.port
    let localCluster := buildDefaultCluster env clusterName .STATIC [address]
    setUpstreamProtocol localCluster inst.endpoint.servicePort)
  ++ managementPorts.map (fun port =>
    let clusterName := buildSubsetKey .inbound emptySubset ManagementClusterHostname port
    let address := buildAddress loopback port.port
    let mgmtCluster := buildDefaultCluster env clusterName .STATIC [address]
    setUpstreamProtocol mgmtCluster port)

/-- The orchestrator's in-place fixup of a zero connect timeout. -/
def fixConnectTimeout (c : Cluster) : Cluster :=
  if c.connectTimeout = 0 then { c with connectTimeout := defaultClusterConnectTimeout } else c

/-- `BuildClusters`: the orchestrator.  `none` models the Go `nil` return on
registry failure; the timeout fixup runs over the outbound clusters before
inbound and auxiliary clusters are appended, as in the source. -/
def BuildClusters (env : Environment) (proxy : Proxy) : Option (List Cluster) :=
  match env.services with
  | .error _ => none
  | .ok services =>
    let clusters := (buildOutboundClusters env services).map fixConnectTimeout
    if proxy.type = .Sidecar then
      match env.getProxyServiceInstances proxy with
      | .error _ => none
      | .ok instances =>
        let managementPorts := env.managementPorts proxy.ipAddress
        some (clusters ++ buildInboundClusters env instances managementPorts
          ++ env.jwksClusters instances)
    else some clusters

/-! ### Concrete fixtures used to instantiate and refute claims -/

/-- A cluster shell with Go zero values, used as `getD` default. -/
def clusterZero : Cluster :=
  { name := emptySubset, type := .STATIC, connectTimeout := 0, hosts := []
    edsClusterConfig := none, maxRequestsPerConnection := none
    circuitBreakers := none, outlierDetection := none, lbPolicy := .ROUND_ROBIN
    tlsContext := none, http2ProtocolOptions := false }

/-- A cluster whose connect timeout is 7ns, to observe overwrites. -/
def cT7 : Cluster := { clusterZero with connectTimeout := 7 }

/-- A cluster resolved as STRICT_DNS. -/
def cDns : Cluster := { clusterZero with type := .STRICT_DNS }

/-- A cluster whose discovery type is EDS. -/
def cEds : Cluster := { clusterZero with type := .EDS }

/-- An HTTP/1.1 service port. -/
def httpPort : Port := { name := "h", port := 80, protocol := .HTTP }

/-- A mesh config with 1s refresh delay and 1s connect timeout. -/
def mesh1 : MeshConfig :=
  { rdsRefreshDelay := { seconds := 1, nanos := 0 }
    connectTimeout := { seconds := 1, nanos := 0 } }

/-- A mesh config whose connect timeout is zero. -/
def meshZeroTimeout : MeshConfig :=
  { rdsRefreshDelay := { seconds := 1, nanos := 0 }
    connectTimeout := { seconds := 0, nanos := 0 } }

/-- A mesh whose RDS refresh delay is sub-second (0s, 999999999ns). -/
def meshSubSecond : MeshConfig :=
  { rdsRefreshDelay := { seconds := 0, nanos := 999999999 }
    connectTimeout := { seconds := 1, nanos := 0 } }

/-- A mesh whose RDS refresh delay is exactly zero. -/
def meshZeroRefresh : MeshConfig :=
  { rdsRefreshDelay := { seconds := 0, nanos := 0 }
    connectTimeout := { seconds := 1, nanos := 0 } }

/-- A client-side-load-balanced service with one HTTP port. -/
def svcEds : Service := { hostname := "s", ports := [httpPort], resolution := .ClientSideLB }

/-- Load-balancer settings selecting the simple passthrough policy. -/
def passthroughLB : LoadBalancerSettings := { lbPolicy := some (.simple .PASSTHROUGH) }

/-- A traffic policy whose only content is LoadBalancer = passthrough. -/
def passthroughPolicy : TrafficPolicy :=
  { loadBalancer := some passthroughLB
    connectionPool := none, outlierDetection := none, tls := none }

/-- A destination rule carrying only the passthrough policy. -/
def drPassthrough : DestinationRule := { trafficPolicy := some passthroughPolicy, subsets := [] }

/-- A traffic policy whose connection pool sets Tcp.MaxConnections only. -/
def poolPolicy (n : Int) : TrafficPolicy :=
  { loadBalancer := none
    connectionPool := some { tcp := some { maxConnections := n, connectTimeout := none }, http := none }
    outlierDetection := none, tls := none }

/-- Rule-level MaxConnections = 10; subset-level MaxConnections = 20, no Http. -/
def drOverride : DestinationRule :=
  { trafficPolicy := some (poolPolicy 10)
    subsets := [{ name := "v", trafficPolicy := some (poolPolicy 20) }] }

/-- A zero-valued (but present) duration. -/
def zeroDur : GogoDuration := { seconds := 0, nanos := 0 }

/-- Tcp settings whose connect timeout is present but zero. -/
def tcpZero : TCPSettings := { maxConnections := 0, connectTimeout := some zeroDur }

/-- Connection pool with a Tcp block whose connect timeout is present but zero. -/
def cpZeroTimeout : ConnectionPoolSettings := { tcp := some tcpZero, http := none }

/-- A service instance local to a sidecar, listening on 8080. -/
def instance8080 : ServiceInstance :=
  { endpoint := { address := "1.2.3.4", port := 8080, servicePort := httpPort }
    service := svcEds }

/-- A sidecar proxy. -/
def sidecarProxy : Proxy := { type := .Sidecar, ipAddress := "5.6.7.8" }

/-- An ingress (non-sidecar) proxy. -/
def ingressProxy : Proxy := { type := .Ingress, ipAddress := "5.6.7.8" }

/-- The error message used for simulated registry failures. -/
def failMsg : String := "registry down"

/-- Assembles a test environment from its varying parts. -/
def mkEnv (mesh : MeshConfig) (svcs : Except String (List Service))
    (dr : Option DestinationRule) (inst : Except String (List ServiceInstance)) : Environment :=
  { services := svcs
    destinationRule := fun _ => dr
    instances := fun _ _ => .ok []
    getProxyServiceInstances := fun _ => inst
    managementPorts := fun _ => []
    mesh := mesh
    jwksClusters := fun _ => [] }

/-- Environment: one ClientSideLB service under a passthrough destination rule. -/
def envPassthrough : Environment := mkEnv mesh1 (.ok [svcEds]) (some drPassthrough) (.ok [])

/-- Environment: zero mesh connect timeout, no services, one proxy instance. -/
def envZeroTimeout : Environment := mkEnv meshZeroTimeout (.ok []) none (.ok [instance8080])

/-- Environment: one ClientSideLB service, rule/subset MaxConnections override. -/
def envOverride : Environment := mkEnv mesh1 (.ok [svcEds]) (some drOverride) (.ok [])

/-- Environment whose service-list query fails. -/
def envFail : Environment := mkEnv mesh1 (.error failMsg) none (.ok [])

/-- Environment: one ClientSideLB service, no destination rule. -/
def envEds : Environment := mkEnv mesh1 (.ok [svcEds]) none (.ok [])

/-- Environment with a sub-second RDS refresh delay. -/
def envSubSecond : Environment := mkEnv meshSubSecond (.ok []) none (.ok [])

/-- Environment with a zero RDS refresh delay. -/
def envZeroRefresh : Environment := mkEnv meshZeroRefresh (.ok []) none (.ok [])

/-- The single cluster BuildClusters emits for `envPassthrough`. -/
def passthroughCluster : Cluster :=
  ((BuildClusters envPassthrough ingressProxy).getD []).getD 0 clusterZero

/-- The cluster list BuildClusters emits for `envEds` and a non-sidecar proxy. -/
def edsClusterList : List Cluster := (BuildClusters envEds ingressProxy).getD []

/-- The single cluster of `edsClusterList`. -/
def edsEmittedCluster : Cluster := edsClusterList.getD 0 clusterZero

/-- The default-cluster (pre-fixup) counterpart of `edsEmittedCluster`. -/
def edsOutboundCluster : Cluster := (buildOutboundClusters envEds [svcEds]).getD 0 clusterZero

end IstioCluster

namespace IstioCluster

/-! ### Field-preservation lemmas for the policy application engine -/

theorem applyConnectionPool_preserves (c : Cluster) (s : Option ConnectionPoolSettings) :
    (applyConnectionPool c s).edsClusterConfig = c.edsClusterConfig
    ∧ (applyConnectionPool c s).type = c.type
    ∧ (applyConnectionPool c s).hosts = c.hosts
    ∧ (applyConnectionPool c s).lbPolicy = c.lbPolicy
    ∧ (applyConnectionPool c s).tlsContext = c.tlsContext
    ∧ (applyConnectionPool c s).name = c.name
    ∧ (applyConnectionPool c s).outlierDetection = c.outlierDetection
    ∧ (applyConnectionPool c s).http2ProtocolOptions = c.http2ProtocolOptions := by
  rcases s with _ | ⟨_ | ⟨mc, _ | ⟨cto⟩⟩, _ | ⟨h⟩⟩ <;>
    simp [applyConnectionPool] <;> split_ifs <;> simp

theorem applyOutlierDetection_preserves (c : Cluster) (o : Option OutlierDetection) :
    (applyOutlierDetection c o).edsClusterConfig = c.edsClusterConfig
    ∧ (applyOutlierDetection c o).type = c.type
    ∧ (applyOutlierDetection c o).hosts = c.hosts
    ∧ (applyOutlierDetection c o).lbPolicy = c.lbPolicy
    ∧ (applyOutlierDetection c o).tlsContext = c.tlsContext
    ∧ (applyOutlierDetection c o).name = c.name
    ∧ (applyOutlierDetection c o).circuitBreakers = c.circuitBreakers
    ∧ (applyOutlierDetection c o).connectTimeout = c.connectTimeout
    ∧ (applyOutlierDetection c o).http2ProtocolOptions = c.http2ProtocolOptions := by
  rcases o with _ | ⟨_ | ⟨h⟩⟩ <;> simp [applyOutlierDetection]

theorem applyLoadBalancer_preserves (c : Cluster) (lb : Option LoadBalancerSettings) :
    (applyLoadBalancer c lb).edsClusterConfig = c.edsClusterConfig
    ∧ (applyLoadBalancer c lb).hosts = c.hosts
    ∧ (applyLoadBalancer c lb).tlsContext = c.tlsContext
    ∧ (applyLoadBalancer c lb).name = c.name
    ∧ (applyLoadBalancer c lb).circuitBreakers = c.circuitBreakers
    ∧ (applyLoadBalancer c lb).connectTimeout = c.connectTimeout
    ∧ (applyLoadBalancer c lb).outlierDetection = c.outlierDetection
    ∧ (applyLoadBalancer c lb).http2ProtocolOptions = c.http2ProtocolOptions := by
  rcases lb with _ | ⟨l⟩
  · exact ⟨rfl, rfl, rfl, rfl, rfl, rfl, rfl, rfl⟩
  · unfold applyLoadBalancer
    cases h : LoadBalancerSettings.getSimple l <;> simp [h]

theorem applyLoadBalancer_type (c : Cluster) (lb : Option LoadBalancerSettings) :
    (applyLoadBalancer c lb).type = c.type ∨ (applyLoadBalancer c lb).type = .ORIGINAL_DST := by
  rcases lb with _ | ⟨l⟩
  · exact Or.inl rfl
  · unfold applyLoadBalancer
    cases h : LoadBalancerSettings.getSimple l <;> simp [h]

theorem applyUpstreamTLSSettings_preserves (c : Cluster) (t : Option TLSSettings) :
    (applyUpstreamTLSSettings c t).edsClusterConfig = c.edsClusterConfig
    ∧ (applyUpstreamTLSSettings c t).type = c.type
    ∧ (applyUpstreamTLSSettings c t).hosts = c.hosts
    ∧ (applyUpstreamTLSSettings c t).lbPolicy = c.lbPolicy
    ∧ (applyUpstreamTLSSettings c t).name = c.name
    ∧ (applyUpstreamTLSSettings c t).circuitBreakers = c.circuitBreakers
    ∧ (applyUpstreamTLSSettings c t).connectTimeout = c.connectTimeout
    ∧ (applyUpstreamTLSSettings c t).outlierDetection = c.outlierDetection
    ∧ (applyUpstreamTLSSettings c t).http2ProtocolOptions = c.http2ProtocolOptions := by
  rcases t with _ | ⟨tls⟩
  · exact ⟨rfl, rfl, rfl, rfl, rfl, rfl, rfl, rfl, rfl⟩
  · unfold applyUpstreamTLSSettings
    cases h : tls.mode <;> simp [h]

theorem applyTrafficPolicy_none (c : Cluster) : applyTrafficPolicy c none = c := rfl

theorem applyTrafficPolicy_edsClusterConfig (c : Cluster) (p : Option TrafficPolicy) :
    (applyTrafficPolicy c p).edsClusterConfig = c.edsClusterConfig := by
  rcases p with _ | ⟨p⟩
  · rfl
  · simp [applyTrafficPolicy,
      (applyUpstreamTLSSettings_preserves _ _).1,
      (applyLoadBalancer_preserves _ _).1,
      (applyOutlierDetection_preserves _ _).1,
      (applyConnectionPool_preserves _ _).1]

theorem applyTrafficPolicy_type (c : Cluster) (p : Option TrafficPolicy) :
    (applyTrafficPolicy c p).type = c.type ∨ (applyTrafficPolicy c p).type = .ORIGINAL_DST := by
  rcases p with _ | ⟨p⟩
  · exact Or.inl rfl
  · unfold applyTrafficPolicy
    rw [(applyUpstreamTLSSettings_preserves _ _).2.1]
    rcases applyLoadBalancer_type
        (applyOutlierDetection (applyConnectionPool c p.connectionPool) p.outlierDetection)
        p.loadBalancer with h | h
    · rw [h, (applyOutlierDetection_preserves _ _).2.1, (applyConnectionPool_preserves _ _).2.1]
      exact Or.inl rfl
    · exact Or.inr h

/-! ### Characterizations of the cluster assembler and EDS linkage -/

theorem buildDefaultCluster_eq (env : Environment) (n : String) (dt : DiscoveryType)
    (hs : List Address) :
    buildDefaultCluster env n dt hs =
      { name := n, type := dt
        connectTimeout := convertGogoDurationToDuration env.mesh.connectTimeout
        hosts := hs, edsClusterConfig := none, maxRequestsPerConnection := none
        circuitBreakers := some { thresholds :=
          [{ maxConnections := none, maxPendingRequests := none
             maxRequests := none, maxRetries := none }] }
        outlierDetection := none
        lbPolicy := if dt = .ORIGINAL_DST then .ORIGINAL_DST_LB else .ROUND_ROBIN
        tlsContext := none, http2ProtocolOptions := false } := by
  cases dt <;>
    simp [buildDefaultCluster, buildDefaultTrafficPolicy, applyTrafficPolicy,
      applyConnectionPool, applyOutlierDetection, applyLoadBalancer,
      applyUpstreamTLSSettings, LoadBalancerSettings.getSimple, DefaultLbType]

theorem updateEds_nonEds (env : Environment) (c : Cluster) (n : String)
    (h : c.type ≠ .EDS) : updateEds env c n = c := by
  simp [updateEds, h]

theorem updateEds_preserves (env : Environment) (c : Cluster) (n : String) :
    (updateEds env c n).type = c.type
    ∧ (updateEds env c n).hosts = c.hosts
    ∧ (updateEds env c n).circuitBreakers = c.circuitBreakers
    ∧ (updateEds env c n).connectTimeout = c.connectTimeout := by
  by_cases h : c.type = .EDS <;> simp [updateEds, h]

theorem setUpstreamProtocol_preserves (c : Cluster) (p : Port) :
    (setUpstreamProtocol c p).type = c.type
    ∧ (setUpstreamProtocol c p).hosts = c.hosts
    ∧ (setUpstreamProtocol c p).edsClusterConfig = c.edsClusterConfig
    ∧ (setUpstreamProtocol c p).circuitBreakers = c.circuitBreakers
    ∧ (setUpstreamProtocol c p).connectTimeout = c.connectTimeout := by
  unfold setUpstreamProtocol
  split_ifs <;> simp

theorem updateEds_eds_isSome (env : Environment) (c : Cluster) (n : String) :
    (updateEds env c n).type = .EDS → (updateEds env c n).edsClusterConfig.isSome := by
  by_cases h : c.type = .EDS <;> simp [updateEds, h]

theorem updateEds_eds (env : Environment) (c : Cluster) (n : String)
    (hc : c.type = .EDS) :
    updateEds env c n =
      { c with
        edsClusterConfig := some
          { serviceName := c.name
            edsConfig :=
              { apiConfigSource :=
                  { apiType := .GRPC
                    clusterNames := [xdsName]
                    refreshDelay :=
                      if int64wrap (env.mesh.rdsRefreshDelay.seconds * 1000000000) = 0
                      then 5000000000
                      else int64wrap (env.mesh.rdsRefreshDelay.seconds * 1000000000) } } } } := by
  simp [updateEds, hc]

/-! ### The shape of every emitted (non-auxiliary) cluster -/

theorem emitted_cluster_shape (env : Environment) (services : List Service)
    (instances : List ServiceInstance) (mgmt : List Port) (c : Cluster)
    (hc : c ∈ buildOutboundClusters env services ++ buildInboundClusters env instances mgmt) :
    ∃ nm dt hs sn port p1 p2,
      c = applyTrafficPolicy
            (applyTrafficPolicy
              (setUpstreamProtocol (updateEds env (buildDefaultCluster env nm dt hs) sn) port)
              p1)
            p2 := by
  rcases List.mem_append.mp hc with h | h
  · rcases List.mem_flatMap.mp h with ⟨svc, _, hp⟩
    rcases List.mem_flatMap.mp hp with ⟨port, _, hcc⟩
    unfold outboundClustersForPort at hcc
    rcases hdr : env.destinationRule svc.hostname with _ | dr <;> rw [hdr] at hcc
    · simp only [List.mem_singleton] at hcc
      refine ⟨buildSubsetKey .outbound emptySubset svc.hostname port,
        convertResolution svc.resolution, buildClusterHosts env svc port,
        svc.hostname, port, none, none, ?_⟩
      rw [applyTrafficPolicy_none, applyTrafficPolicy_none]
      exact hcc
    · rcases List.mem_cons.mp hcc with hh | hh
      · refine ⟨buildSubsetKey .outbound emptySubset svc.hostname port,
          convertResolution svc.resolution, buildClusterHosts env svc port,
          svc.hostname, port, dr.trafficPolicy, none, ?_⟩
        rw [applyTrafficPolicy_none]
        exact hh
      · rcases List.mem_map.mp hh with ⟨subset, _, hsub⟩
        refine ⟨buildSubsetKey .outbound subset.name svc.hostname port,
          convertResolution svc.resolution, buildClusterHosts env svc port,
          svc.hostname, port, dr.trafficPolicy, subset.trafficPolicy, ?_⟩
        exact hsub.symm
  · unfold buildInboundClusters at h
    rcases List.mem_append.mp h with h | h <;> rcases List.mem_map.mp h with ⟨x, _, hx⟩
    · refine ⟨buildSubsetKey .inbound emptySubset x.service.hostname x.endpoint.servicePort,
        .STATIC, [buildAddress loopback x.endpoint.port],
        x.service.hostname, x.endpoint.servicePort, none, none, ?_⟩
      rw [applyTrafficPolicy_none, applyTrafficPolicy_none, updateEds_nonEds]
      · exact hx.symm
      · rw [buildDefaultCluster_eq]
        simp
    · refine ⟨buildSubsetKey .inbound emptySubset ManagementClusterHostname x,
        .STATIC, [buildAddress loopback x.port], ManagementClusterHostname, x, none, none, ?_⟩
      rw [applyTrafficPolicy_none, applyTrafficPolicy_none, updateEds_nonEds]
      · exact hx.symm
      · rw [buildDefaultCluster_eq]
        simp

/-! ### Invariant propagation -/

theorem applyTrafficPolicy_eds_invariant (c : Cluster) (p : Option TrafficPolicy)
    (h : c.type = .EDS → c.edsClusterConfig.isSome) :
    (applyTrafficPolicy c p).type = .EDS → (applyTrafficPolicy c p).edsClusterConfig.isSome := by
  intro ht
  rw [applyTrafficPolicy_edsClusterConfig]
  rcases applyTrafficPolicy_type c p with h2 | h2
  · exact h (h2 ▸ ht)
  · rw [ht] at h2
    cases h2

theorem applyConnectionPool_some_circuitBreakers (c c' : Cluster) (s : ConnectionPoolSettings) :
    (applyConnectionPool c (some s)).circuitBreakers = (applyConnectionPool c' (some s)).circuitBreakers
    ∧ ((applyConnectionPool c (some s)).circuitBreakers.map fun cb => cb.thresholds.length) = some 1 := by
  rcases s with ⟨_ | tcp, _ | http⟩ <;> simp [applyConnectionPool]

theorem applyConnectionPool_idem (c : Cluster) (s : Option ConnectionPoolSettings) :
    applyConnectionPool (applyConnectionPool c s) s = applyConnectionPool c s := by
  rcases s with _ | ⟨_ | ⟨mc, _ | cto⟩, _ | h⟩ <;>
    simp [applyConnectionPool] <;> split_ifs <;> simp

theorem applyTrafficPolicy_threshold_invariant (c : Cluster) (p : Option TrafficPolicy)
    (h : (c.circuitBreakers.map fun cb => cb.thresholds.length) = some 1) :
    ((applyTrafficPolicy c p).circuitBreakers.map fun cb => cb.thresholds.length) = some 1 := by
  rcases p with _ | ⟨p⟩
  · exact h
  · unfold applyTrafficPolicy
    rw [(applyUpstreamTLSSettings_preserves _ _).2.2.2.2.2.1,
      (applyLoadBalancer_preserves _ _).2.2.2.2.1,
      (applyOutlierDetection_preserves _ _).2.2.2.2.2.2.1]
    rcases p.connectionPool with _ | s
    · exact h
    · exact (applyConnectionPool_some_circuitBreakers c c s).2

end IstioCluster

namespace IstioCluster

/-! ### Claim theorems -/

/-- C1 (counterexample): BuildClusters on a client-side-load-balanced service
whose traffic policy sets LoadBalancer = passthrough emits a cluster whose
discovery type is ORIGINAL_DST (not EDS) yet still carries the EDS linkage
block, refuting the claimed "EDS iff EDS linkage" equivalence. -/
theorem passthrough_keeps_eds_linkage_cex :
    passthroughCluster ∈ (BuildClusters envPassthrough ingressProxy).getD []
    ∧ ¬ (passthroughCluster.type = .EDS ↔ passthroughCluster.edsClusterConfig.isSome = true) := by
  constructor
  · decide
  · decide

/-- C1 (amended): for every cluster emitted by the outbound or inbound
builders, discovery type EDS implies the presence of an EDS linkage block;
the converse direction of the claimed equivalence is false (see the
counterexample), since a passthrough load-balancer override re-types an EDS
cluster to ORIGINAL_DST without removing its linkage. -/
theorem eds_type_implies_linkage (env : Environment) (services : List Service)
    (instances : List ServiceInstance) (mgmt : List Port) (c : Cluster)
    (hc : c ∈ buildOutboundClusters env services ++ buildInboundClusters env instances mgmt)
    (ht : c.type = .EDS) : c.edsClusterConfig.isSome := by
  rcases emitted_cluster_shape env services instances mgmt c hc with
    ⟨nm, dt, hs, sn, port, p1, p2, hshape⟩
  subst hshape
  refine applyTrafficPolicy_eds_invariant _ _ (applyTrafficPolicy_eds_invariant _ _ ?_) ht
  intro h2
  rw [(setUpstreamProtocol_preserves _ _).2.2.1]
  rw [(setUpstreamProtocol_preserves _ _).1] at h2
  exact updateEds_eds_isSome env _ sn h2

/-- C1 witness: the outbound cluster of a ClientSideLB service without a
destination rule has type EDS and carries the linkage. -/
theorem eds_type_implies_linkage_witness :
    edsOutboundCluster ∈ buildOutboundClusters envEds [svcEds] ++ buildInboundClusters envEds [] []
    ∧ edsOutboundCluster.type = .EDS
    ∧ edsOutboundCluster.edsClusterConfig.isSome :=
  ⟨by decide, by decide, eds_type_implies_linkage envEds [svcEds] [] [] edsOutboundCluster (by decide) (by decide)⟩

end IstioCluster

namespace IstioCluster

/-- C2 (counterexample): with a zero mesh-wide connect timeout, a sidecar's
inbound cluster is appended after the orchestrator's timeout fixup pass and
is returned with a zero connect timeout. -/
theorem inbound_zero_connect_timeout_cex :
    (BuildClusters envZeroTimeout sidecarProxy).map (fun cs => cs.map Cluster.connectTimeout)
      = some [0] := by
  decide

/-- C2 (amended): for a non-sidecar proxy every cluster returned by
BuildClusters has a non-zero connect timeout, because the 5-second-default
post-processing pass covers the whole (outbound-only) result; for a sidecar,
inbound and auxiliary clusters are appended after that pass (see the
counterexample). -/
theorem nonsidecar_clusters_nonzero_timeout (env : Environment) (proxy : Proxy)
    (cs : List Cluster) (c : Cluster) (h1 : proxy.type ≠ .Sidecar)
    (h2 : BuildClusters env proxy = some cs) (h3 : c ∈ cs) : c.connectTimeout ≠ 0 := by
  unfold BuildClusters at h2
  split at h2
  · cases h2
  · rw [if_neg h1] at h2
    injection h2 with h2
    subst h2
    rcases List.mem_map.mp h3 with ⟨c0, _, hfix⟩
    subst hfix
    unfold fixConnectTimeout
    split_ifs with h
    · simp [defaultClusterConnectTimeout]
    · exact h

/-- C2 witness: the single outbound cluster for a non-sidecar proxy has a
non-zero connect timeout. -/
theorem nonsidecar_clusters_nonzero_timeout_witness :
    ingressProxy.type ≠ .Sidecar
    ∧ BuildClusters envEds ingressProxy = some edsClusterList
    ∧ edsEmittedCluster ∈ edsClusterList
    ∧ edsEmittedCluster.connectTimeout ≠ 0 :=
  ⟨by decide, by decide, by decide,
    nonsidecar_clusters_nonzero_timeout envEds ingressProxy edsClusterList edsEmittedCluster
      (by decide) (by decide) (by decide)⟩

/-- C3 (counterexample): a Tcp block whose connect timeout is present but
zero (not strictly positive) overwrites the cluster's previous connect
timeout with zero, contradicting the claimed "zero means do-not-override". -/
theorem present_zero_connect_timeout_overwrites_cex :
    cpZeroTimeout.tcp = some tcpZero
    ∧ tcpZero.connectTimeout = some zeroDur
    ∧ convertGogoDurationToDuration zeroDur = 0
    ∧ cT7.connectTimeout = 7
    ∧ (applyConnectionPool cT7 (some cpZeroTimeout)).connectTimeout = 0 := by
  refine ⟨rfl, rfl, by decide, rfl, by decide⟩

/-- C3 (amended): with a Tcp block present, applyConnectionPool overwrites
the cluster's connect timeout with the converted Tcp connect-timeout exactly
when that field is present (nil-ness, not strict positivity, is the test);
an absent (nil) connect-timeout leaves the previous value unchanged. -/
theorem connection_pool_timeout_override (c : Cluster) (s : ConnectionPoolSettings)
    (tcp : TCPSettings) (h : s.tcp = some tcp) :
    (applyConnectionPool c (some s)).connectTimeout
      = (tcp.connectTimeout.map convertGogoDurationToDuration).getD c.connectTimeout := by
  rcases s with ⟨tcp', http⟩
  cases h
  rcases tcp with ⟨mc, _ | cto⟩ <;> cases http <;>
    simp [applyConnectionPool] <;> split_ifs <;> simp

/-- C3 witness: at the zero-timeout Tcp block, the override equation holds
for the 7ns cluster. -/
theorem connection_pool_timeout_override_witness :
    cpZeroTimeout.tcp = some tcpZero
    ∧ (applyConnectionPool cT7 (some cpZeroTimeout)).connectTimeout
        = (tcpZero.connectTimeout.map convertGogoDurationToDuration).getD cT7.connectTimeout :=
  ⟨rfl, connection_pool_timeout_override cT7 cpZeroTimeout tcpZero rfl⟩

/-- C4: applying a traffic policy whose LoadBalancer simple policy is
passthrough sets the load-balancing policy to original-destination AND
forces the discovery type to ORIGINAL_DST, for every cluster (in particular
one previously resolved as STRICT_DNS). -/
theorem passthrough_forces_original_dst (c : Cluster) (p : TrafficPolicy)
    (lb : LoadBalancerSettings) (hlb : p.loadBalancer = some lb)
    (hsimple : lb.lbPolicy = some (.simple .PASSTHROUGH)) :
    (applyTrafficPolicy c (some p)).lbPolicy = .ORIGINAL_DST_LB
    ∧ (applyTrafficPolicy c (some p)).type = .ORIGINAL_DST := by
  have hg : lb.getSimple = .PASSTHROUGH := by
    simp [LoadBalancerSettings.getSimple, hsimple]
  have h1 : applyTrafficPolicy c (some p)
      = applyUpstreamTLSSettings
          (applyLoadBalancer
            (applyOutlierDetection (applyConnectionPool c p.connectionPool) p.outlierDetection)
            p.loadBalancer)
          p.tls := rfl
  have h2 : ∀ x : Cluster, applyLoadBalancer x (some lb)
      = { x with lbPolicy := .ORIGINAL_DST_LB, type := .ORIGINAL_DST } := by
    intro x
    simp [applyLoadBalancer, hg]
  rw [h1, hlb, h2]
  exact ⟨(applyUpstreamTLSSettings_preserves _ _).2.2.2.1, (applyUpstreamTLSSettings_preserves _ _).2.1⟩

/-- C4 witness: the passthrough policy re-types a STRICT_DNS cluster to
ORIGINAL_DST with original-destination load balancing. -/
theorem passthrough_forces_original_dst_witness :
    passthroughPolicy.loadBalancer = some passthroughLB
    ∧ passthroughLB.lbPolicy = some (.simple .PASSTHROUGH)
    ∧ cDns.type = .STRICT_DNS
    ∧ (applyTrafficPolicy cDns (some passthroughPolicy)).lbPolicy = .ORIGINAL_DST_LB
    ∧ (applyTrafficPolicy cDns (some passthroughPolicy)).type = .ORIGINAL_DST :=
  ⟨rfl, rfl, rfl,
    (passthrough_forces_original_dst cDns passthroughPolicy passthroughLB rfl rfl).1,
    (passthrough_forces_original_dst cDns passthroughPolicy passthroughLB rfl rfl).2⟩

end IstioCluster

namespace IstioCluster

/-- C5: applying a non-nil connection pool replaces the circuit-breaker
block with a freshly built one-threshold block independent of the cluster's
previous state; concretely, with rule-level Tcp.MaxConnections = 10 and
subset-level Tcp.MaxConnections = 20 (no Http block), the default cluster's
threshold carries 10 and the subset cluster's threshold carries 20. -/
theorem connection_pool_full_replacement (c c' : Cluster) (s : ConnectionPoolSettings) :
    (applyConnectionPool c (some s)).circuitBreakers
      = (applyConnectionPool c' (some s)).circuitBreakers
    ∧ ((applyConnectionPool c (some s)).circuitBreakers.map fun cb => cb.thresholds.length) = some 1
    ∧ (buildOutboundClusters envOverride [svcEds]).map
        (fun cl => cl.circuitBreakers.map fun cb => cb.thresholds.map Thresholds.maxConnections)
      = [some [some 10], some [some 20]] :=
  ⟨(applyConnectionPool_some_circuitBreakers c c' s).1,
   (applyConnectionPool_some_circuitBreakers c c' s).2,
   by decide⟩

/-- C6: applying an absent traffic policy is the identity on every cluster,
and applying the same non-empty connection-pool settings twice equals
applying it once. -/
theorem traffic_policy_layering_idempotence (c : Cluster) (s : ConnectionPoolSettings) :
    applyTrafficPolicy c none = c
    ∧ applyConnectionPool (applyConnectionPool c (some s)) (some s)
        = applyConnectionPool c (some s) :=
  ⟨applyTrafficPolicy_none c, applyConnectionPool_idem c (some s)⟩

/-- C7: if the registry's service-list query fails, BuildClusters returns
nil (none), never a partial list, for every proxy. -/
theorem services_failure_returns_none (env : Environment) (proxy : Proxy) (msg : String)
    (h : env.services = .error msg) : BuildClusters env proxy = none := by
  unfold BuildClusters
  rw [h]

/-- C7 witness: the failing environment yields none for a sidecar proxy. -/
theorem services_failure_returns_none_witness :
    envFail.services = .error failMsg ∧ BuildClusters envFail sidecarProxy = none :=
  ⟨rfl, services_failure_returns_none envFail sidecarProxy failMsg rfl⟩

/-- C8: for N instances and M management ports, buildInboundClusters returns
exactly N+M clusters, each STATIC and addressed at loopback paired with the
respective instance endpoint port or management port. -/
theorem buildInboundClusters_count_static_loopback (env : Environment)
    (instances : List ServiceInstance) (mgmt : List Port) :
    (buildInboundClusters env instances mgmt).length = instances.length + mgmt.length
    ∧ (buildInboundClusters env instances mgmt).map (fun c => (c.type, c.hosts))
      = instances.map (fun i => (DiscoveryType.STATIC, [buildAddress loopback i.endpoint.port]))
        ++ mgmt.map (fun p => (DiscoveryType.STATIC, [buildAddress loopback p.port])) := by
  constructor
  · simp [buildInboundClusters]
  · unfold buildInboundClusters
    rw [List.map_append, List.map_map, List.map_map]
    congr 1 <;> refine List.map_congr_left fun x _ => ?_ <;>
      simp only [Function.comp] <;>
      rw [(setUpstreamProtocol_preserves _ _).1, (setUpstreamProtocol_preserves _ _).2.1,
        buildDefaultCluster_eq]

/-- C9 (implicit): every cluster built by buildDefaultCluster carries a
non-nil circuit-breaker block with exactly one thresholds record, and so
does every cluster emitted by the outbound and inbound builders. -/
theorem every_cluster_one_threshold (env : Environment) (nm : String)
    (dt : DiscoveryType) (hs : List Address) (services : List Service)
    (instances : List ServiceInstance) (mgmt : List Port) (c : Cluster)
    (hc : c ∈ buildOutboundClusters env services ++ buildInboundClusters env instances mgmt) :
    ((buildDefaultCluster env nm dt hs).circuitBreakers.map fun cb => cb.thresholds.length) = some 1
    ∧ (c.circuitBreakers.map fun cb => cb.thresholds.length) = some 1 := by
  constructor
  · rw [buildDefaultCluster_eq]
    rfl
  · rcases emitted_cluster_shape env services instances mgmt c hc with
      ⟨nm', dt', hs', sn, port, p1, p2, hshape⟩
    subst hshape
    refine applyTrafficPolicy_threshold_invariant _ _ (applyTrafficPolicy_threshold_invariant _ _ ?_)
    rw [(setUpstreamProtocol_preserves _ _).2.2.2.1, (updateEds_preserves _ _ _).2.2.1,
      buildDefaultCluster_eq]
    rfl

/-- C9 witness: the emitted EDS cluster has exactly one threshold record. -/
theorem every_cluster_one_threshold_witness :
    edsOutboundCluster ∈ buildOutboundClusters envEds [svcEds] ++ buildInboundClusters envEds [] []
    ∧ ((buildDefaultCluster envEds emptySubset .STATIC []).circuitBreakers.map
          fun cb => cb.thresholds.length) = some 1
    ∧ ((edsOutboundCluster.circuitBreakers.map fun cb => cb.thresholds.length) = some 1) :=
  ⟨by decide,
   (every_cluster_one_threshold envEds emptySubset .STATIC [] [svcEds] [] []
      edsOutboundCluster (by decide)).1,
   (every_cluster_one_threshold envEds emptySubset .STATIC [] [svcEds] [] []
      edsOutboundCluster (by decide)).2⟩

/-- C10 (implicit): the EDS refresh delay attached by updateEds depends only
on the seconds of the mesh RDS refresh setting (nanos are discarded), a
zero-seconds setting (any sub-second configuration) yields the 5-second
fallback, and the attached refresh delay is never zero. -/
theorem updateEds_refresh_seconds_only (env env' : Environment) (c : Cluster) (n n' : String)
    (hc : c.type = .EDS)
    (hsec : env'.mesh.rdsRefreshDelay.seconds = env.mesh.rdsRefreshDelay.seconds) :
    ((updateEds env c n).edsClusterConfig.map fun e => e.edsConfig.apiConfigSource.refreshDelay)
      = ((updateEds env' c n').edsClusterConfig.map fun e => e.edsConfig.apiConfigSource.refreshDelay)
    ∧ (env.mesh.rdsRefreshDelay.seconds = 0 →
        ((updateEds env c n).edsClusterConfig.map fun e => e.edsConfig.apiConfigSource.refreshDelay)
          = some 5000000000)
    ∧ ((updateEds env c n).edsClusterConfig.map fun e => e.edsConfig.apiConfigSource.refreshDelay)
        ≠ some 0 := by
  rw [updateEds_eds env c n hc, updateEds_eds env' c n' hc]
  rw [hsec]
  refine ⟨rfl, ?_, ?_⟩
  · intro hz
    rw [hz]
    simp [int64wrap]
  · simp only [Option.map_some]
    split_ifs with h
    · simp
    · simp [h]

/-- C10 witness: a 999999999ns (sub-second) refresh delay produces the same
(5s, non-zero) refresh delay as a zero refresh delay. -/
theorem updateEds_refresh_seconds_only_witness :
    cEds.type = .EDS
    ∧ envZeroRefresh.mesh.rdsRefreshDelay.seconds = envSubSecond.mesh.rdsRefreshDelay.seconds
    ∧ envSubSecond.mesh.rdsRefreshDelay.seconds = 0
    ∧ (((updateEds envSubSecond cEds emptySubset).edsClusterConfig.map
          fun e => e.edsConfig.apiConfigSource.refreshDelay)
        = ((updateEds envZeroRefresh cEds emptySubset).edsClusterConfig.map
          fun e => e.edsConfig.apiConfigSource.refreshDelay))
    ∧ (((updateEds envSubSecond cEds emptySubset).edsClusterConfig.map
          fun e => e.edsConfig.apiConfigSource.refreshDelay) = some 5000000000)
    ∧ (((updateEds envSubSecond cEds emptySubset).edsClusterConfig.map
          fun e => e.edsConfig.apiConfigSource.refreshDelay) ≠ some 0) :=
  ⟨rfl, rfl, rfl,
   (updateEds_refresh_seconds_only envSubSecond envZeroRefresh cEds emptySubset emptySubset rfl rfl).1,
   (updateEds_refresh_seconds_only envSubSecond envZeroRefresh cEds emptySubset emptySubset rfl rfl).2.1 rfl,
   (updateEds_refresh_seconds_only envSubSecond envZeroRefresh cEds emptySubset emptySubset rfl rfl).2.2⟩

end IstioCluster
